import Mathlib

/-
Shallow embedding of src/grvt_helpers.py (GRVT-API-Setup).

Numbers that the Python code handles as floats are modelled as exact
rationals (ℚ); the Python built-in `round` is round-half-to-even, modelled
exactly on ℚ by `pyRound`.  Optional float arguments are modelled as
`Option ℚ`, and Python truthiness of such a value (None and 0.0 are falsy)
by `truthy`.  A Python function that can raise is modelled with `PyResult`,
whose `exn` constructor stands for an uncaught exception.
-/

/-- Result of a Python call: either a returned value or a raised exception. -/
inductive PyResult (α : Type) where
  | ok : α → PyResult α
  | exn : PyResult α
deriving DecidableEq

/-- Floor of a rational, written on `num`/`den` so that the kernel can
evaluate it (`Rat.floor_def` states that this equals `⌊q⌋`). -/
def ratFloor (q : ℚ) : ℤ :=
  q.num / (q.den : ℤ)

/-- Python round-half-to-even (the built-in `round`) on exact rationals. -/
def pyRound (q : ℚ) : ℤ :=
  let f : ℤ := ratFloor q
  let r : ℚ := q - (f : ℚ)
  if r < 1 / 2 then f
  else if 1 / 2 < r then f + 1
  else if f % 2 = 0 then f else f + 1

/-- Python truthiness of an optional float: `None` and `0.0` are falsy. -/
def truthy : Option ℚ → Bool
  | none => false
  | some x => x != 0

/-- Python `str.lower()` (per-character lowercasing). -/
def pyLower (s : String) : String :=
  String.mk (s.data.map Char.toLower)

/-- Python `f"{x:.2f}"` for a nonnegative rational: round to 2 decimals
(half-to-even) and print with exactly two fractional digits. -/
def pyFormat2fAux (q : ℚ) : String :=
  let c : ℕ := (pyRound (q * 100)).toNat
  let ip := c / 100
  let fr := c % 100
  toString ip ++ "." ++ (if fr < 10 then "0" ++ toString fr else toString fr)

/-- Python `f"{x:.2f}"`, with the sign peeled off first. -/
def pyFormat2f (q : ℚ) : String :=
  if q < 0 then "-" ++ pyFormat2fAux (-q) else pyFormat2fAux q

/-- Message from grvt_helpers.py line 374. -/
def tpLongMsg (last_price : ℚ) : String :=
  "TP for LONG must be > last price ($" ++ pyFormat2f last_price ++ ")"

/-- Message from grvt_helpers.py line 378. -/
def tpShortMsg (last_price : ℚ) : String :=
  "TP for SHORT must be < last price ($" ++ pyFormat2f last_price ++ ")"

/-- Message from grvt_helpers.py line 385. -/
def slLongMsg (last_price : ℚ) : String :=
  "SL for LONG must be < last price ($" ++ pyFormat2f last_price ++ ")"

/-- Message from grvt_helpers.py line 389. -/
def slShortMsg (last_price : ℚ) : String :=
  "SL for SHORT must be > last price ($" ++ pyFormat2f last_price ++ ")"

/-- Embedding of `round_to_tick_size` (grvt_helpers.py lines 320-339):
`round(price / tick_size) * tick_size`.  This is the pure value computed
when `tick_size` is nonzero; division by a zero tick is modelled by
`roundToTickSizeChecked` below. -/
def round_to_tick_size (price : ℚ) (tick_size : ℚ) : ℚ :=
  (pyRound (price / tick_size) : ℚ) * tick_size

/-- Runtime behaviour of `round_to_tick_size` including the zero divisor:
`price / 0.0` raises ZeroDivisionError; any nonzero tick returns the
rounded value (no validation of negative ticks is performed). -/
def roundToTickSizeChecked (price : ℚ) (tick_size : ℚ) : PyResult ℚ :=
  if tick_size = 0 then .exn else .ok (round_to_tick_size price tick_size)

/-- Embedding of `validate_tpsl_prices` (grvt_helpers.py lines 342-391).
The Python body is a sequence of early returns; it is rendered here as an
if-cascade whose conditions are checked in the source order (TP for long,
TP for short, SL for long, SL for short). -/
def validate_tpsl_prices (side : String) (last_price : ℚ)
    (take_profit_price : Option ℚ) (stop_loss_price : Option ℚ) :
    Bool × String :=
  if !truthy take_profit_price && !truthy stop_loss_price then (true, "")
  else
    let is_long := pyLower side == "sell"
    if truthy take_profit_price && is_long
        && decide (take_profit_price.getD 0 ≤ last_price) then
      (false, tpLongMsg last_price)
    else if truthy take_profit_price && !is_long
        && decide (last_price ≤ take_profit_price.getD 0) then
      (false, tpShortMsg last_price)
    else if truthy stop_loss_price && is_long
        && decide (last_price ≤ stop_loss_price.getD 0) then
      (false, slLongMsg last_price)
    else if truthy stop_loss_price && !is_long
        && decide (stop_loss_price.getD 0 ≤ last_price) then
      (false, slShortMsg last_price)
    else (true, "")

/-- Least exponent `k ≤ 29` such that `q * 10 ^ k` is an integer, when one
exists: the length of the exact decimal expansion of `q`. -/
def ratDecExp (q : ℚ) : Option ℕ :=
  (List.range 30).find? (fun k => (q * (10 : ℚ) ^ k).den == 1)

/-- Python `str` of a nonnegative float whose value has an exact (short)
decimal expansion: an integer prints with a trailing `.0`, otherwise the
shortest exact decimal expansion is printed.  The values the code feeds to
`str` are tick-rounded prices, which are decimal-exact for decimal tick
sizes, so this matches the CPython shortest-round-trip float repr there. -/
def pyFloatStrAux (q : ℚ) : String :=
  match ratDecExp q with
  | some 0 => toString q.num ++ ".0"
  | some k =>
    let m := (q * (10 : ℚ) ^ k).num.toNat
    let ip := m / 10 ^ k
    let fr := m % 10 ^ k
    let fs := toString fr
    toString ip ++ "." ++ String.mk (List.replicate (k - fs.length) '0') ++ fs
  | none => toString q.num ++ "/" ++ toString q.den

/-- Python `str` of a float, with the sign peeled off first. -/
def pyFloatStr (q : ℚ) : String :=
  if q < 0 then "-" ++ pyFloatStrAux (-q) else pyFloatStrAux q

/-- Innermost `tpsl` dictionary built by `create_tpsl_params`. -/
structure TpslInner where
  trigger_price : String
  trigger_by : String
  close_position : Bool
deriving DecidableEq

/-- The `trigger` dictionary built by `create_tpsl_params`. -/
structure TriggerDesc where
  trigger_type : String
  tpsl : TpslInner
deriving DecidableEq

/-- One value of the mapping returned by `create_tpsl_params`. -/
structure TriggerEntry where
  trigger : TriggerDesc
deriving DecidableEq

/-- Builds one `take_profit`/`stop_loss` entry of `create_tpsl_params`
(grvt_helpers.py lines 434-457): the trigger price is stringified. -/
def mkTrigger (trigger_type : String) (price : ℚ) (trigger_by : String)
    (close_position : Bool) : TriggerEntry :=
  ⟨⟨trigger_type, ⟨pyFloatStr price, trigger_by, close_position⟩⟩⟩

/-- Embedding of `create_tpsl_params` (grvt_helpers.py lines 394-459).
The returned Python dict is modelled as an association list in insertion
order (`take_profit` before `stop_loss`).  Each supplied (truthy) price is
first re-bound to its tick-rounded value - raising ZeroDivisionError if
`tick_size` is zero - and an entry is emitted only if the re-bound value is
still truthy.  The `side` argument is accepted but never read. -/
def create_tpsl_params (side : String) (take_profit_price : Option ℚ)
    (stop_loss_price : Option ℚ) (trigger_by : String) (close_position : Bool)
    (tick_size : ℚ) : PyResult (List (String × TriggerEntry)) :=
  let tpStep : PyResult (Option ℚ) :=
    if truthy take_profit_price then
      match roundToTickSizeChecked (take_profit_price.getD 0) tick_size with
      | .exn => .exn
      | .ok r => .ok (some r)
    else .ok take_profit_price
  match tpStep with
  | .exn => .exn
  | .ok tp =>
    let slStep : PyResult (Option ℚ) :=
      if truthy stop_loss_price then
        match roundToTickSizeChecked (stop_loss_price.getD 0) tick_size with
        | .exn => .exn
        | .ok r => .ok (some r)
      else .ok stop_loss_price
    match slStep with
    | .exn => .exn
    | .ok sl =>
      let params : List (String × TriggerEntry) := []
      let params := if truthy tp then
          params ++ [("take_profit", mkTrigger "TAKE_PROFIT" (tp.getD 0) trigger_by close_position)]
        else params
      let params := if truthy sl then
          params ++ [("stop_loss", mkTrigger "STOP_LOSS" (sl.getD 0) trigger_by close_position)]
        else params
      .ok params

/-- Key list of a `create_tpsl_params` result (empty if an exception was
raised). -/
def resultKeys (r : PyResult (List (String × TriggerEntry))) : List String :=
  match r with
  | .exn => []
  | .ok l => l.map Prod.fst

/-- Minimum of a Python list (`min(...)`): `none` on the empty list, where
Python raises ValueError. -/
def pyMin (l : List ℚ) : Option ℚ :=
  match l with
  | [] => none
  | a :: as => some (as.foldl min a)

/-- State of the `RateLimiter` class (grvt_helpers.py lines 543-585).
Timestamps are seconds as exact rationals; `datetime.now()` is passed in
explicitly wherever the Python code reads the clock. -/
structure RateLimiter where
  max_requests : ℕ
  time_window : ℚ
  requests : List ℚ
deriving DecidableEq

/-- Embedding of `RateLimiter.can_make_request` (lines 559-569): prunes
`requests`, keeping exactly the timestamps with `now - t` strictly below
`time_window`, stores the pruned list back, and returns whether its length
is strictly below `max_requests`. -/
def RateLimiter.can_make_request (rl : RateLimiter) (now : ℚ) :
    RateLimiter × Bool :=
  let pruned := rl.requests.filter (fun req_time => decide (now - req_time < rl.time_window))
  (⟨rl.max_requests, rl.time_window, pruned⟩, decide (pruned.length < rl.max_requests))

/-- Embedding of `RateLimiter.record_request` (lines 571-573). -/
def RateLimiter.record_request (rl : RateLimiter) (now : ℚ) : RateLimiter :=
  ⟨rl.max_requests, rl.time_window, rl.requests ++ [now]⟩

/-- Embedding of `RateLimiter.wait_if_needed` (lines 575-585).  The clock is
read twice in the source (once inside `can_make_request`, once when the wait
is computed), hence the two `now` arguments.  The result carries the
mutated state and the duration passed to `time.sleep` (`none` when the
function returns without sleeping); `min` of an empty list raises. -/
def RateLimiter.wait_if_needed (rl : RateLimiter) (now1 now2 : ℚ) :
    PyResult (RateLimiter × Option ℚ) :=
  let res := rl.can_make_request now1
  if res.2 then .ok (res.1, none)
  else
    match pyMin res.1.requests with
    | none => .exn
    | some oldest_request =>
      let wait_time := rl.time_window - (now2 - oldest_request)
      if 0 < wait_time then .ok (res.1, some (wait_time + 1 / 10))
      else .ok (res.1, none)

/-- Outcome of a `client.cancel_order` / `client.create_order` call for one
item, as the code distinguishes them: an exception, a return value that the
code treats as failure (`False`, `None`, or an empty dict), or a return
value that counts as success. -/
inductive PyCallResult where
  | raises
  | retFalse
  | retNone
  | retEmptyDict
  | retOk
deriving DecidableEq

/-- An order record as consumed by the module-level `emergency_cancel_all`
(grvt_helpers.py lines 678-740).  A dict field is `none` when the key is
absent and `some v` when present with value `v` (itself `none` for Python
`None`); `cancel_result` models what `client.cancel_order` does for this
id of that order. -/
structure PyOrder where
  order_id : Option (Option String)
  id : Option (Option String)
  cancel_result : PyCallResult
deriving DecidableEq

/-- Python `d.get(key, default)`: the stored value if the key is present,
the default otherwise. -/
def pyDictGet (field : Option (Option String)) (default : Option String) :
    Option String :=
  match field with
  | none => default
  | some v => v

/-- Python truthiness of an optional string: `None` and `""` are falsy. -/
def truthyStr : Option String → Bool
  | none => false
  | some s => s != ""

/-- Lookup of the `order_id` key falling back to the `id` key, from line 701. -/
def orderEffectiveId (o : PyOrder) : Option String :=
  pyDictGet o.order_id (pyDictGet o.id none)

/-- One iteration of the cancel loop counts the order iff its id is truthy
and `cancel_order` returned a value the code does not treat as failure
(lines 698-732); exceptions are caught and skip to the next order. -/
def cancelSucceeds (o : PyOrder) : Bool :=
  truthyStr (orderEffectiveId o) &&
    (match o.cancel_result with
     | .retOk => true
     | _ => false)

/-- The cancel loop of lines 698-732 with its running count. -/
def cancelLoop : List PyOrder → ℕ → ℕ
  | [], count => count
  | o :: rest, count =>
    if cancelSucceeds o then cancelLoop rest (count + 1)
    else cancelLoop rest count

/-- Embedding of the module-level `emergency_cancel_all` (grvt_helpers.py
lines 678-740, the second definition, which shadows the one at line 467).
A failing `fetch_open_orders` is caught by the top-level handler and yields
0; an empty order list returns 0 early; otherwise the loop accumulates the
per-order successes. -/
def emergency_cancel_all (fetch : PyResult (List PyOrder)) : ℕ :=
  match fetch with
  | .exn => 0
  | .ok open_orders =>
    if open_orders.isEmpty then 0
    else cancelLoop open_orders 0

/-- A position record as consumed by the module-level `emergency_close_all`
(grvt_helpers.py lines 743-819, the second definition, which shadows the
one at line 497). -/
structure PyPosition where
  size : ℚ
  symbol : Option String
  create_result : PyCallResult
deriving DecidableEq

/-- Embedding of the module-level `emergency_close_all` (lines 743-819).
Its body filters the fetched positions with `safe_float` of the `size` key,
but `safe_float` is only defined locally inside `create_positions_table`
(line 297), not at module scope: with a non-empty positions list the
comprehension raises NameError, the top-level `except Exception` handler
catches it, and 0 is returned.  With an empty list `safe_float` is never
evaluated and 0 is returned via the no-positions branch. -/
def emergency_close_all (fetch : PyResult (List PyPosition)) : ℕ :=
  match fetch with
  | .exn => 0
  | .ok positions =>
    match positions with
    | [] => 0
    | _ :: _ => 0

lemma ratFloor_eq (q : ℚ) : ratFloor q = ⌊q⌋ :=
  Rat.floor_def.symm

lemma pyRound_intCast (n : ℤ) : pyRound (n : ℚ) = n := by
  unfold pyRound
  rw [ratFloor_eq, Int.floor_intCast]
  norm_num

lemma pyRound_zero : pyRound 0 = 0 := by
  simpa using pyRound_intCast 0

lemma round_to_tick_size_zero_price (t : ℚ) : round_to_tick_size 0 t = 0 := by
  unfold round_to_tick_size
  rw [zero_div, pyRound_zero]
  simp

/-- C4: `round_to_tick_size` is idempotent for strictly positive price and
tick: rounding an already tick-rounded price changes nothing, since the
rounded value divided by the tick is an integer and `round` fixes
integers. -/
theorem round_to_tick_size_idempotent (p t : ℚ) (hp : 0 < p) (ht : 0 < t) :
    round_to_tick_size (round_to_tick_size p t) t = round_to_tick_size p t := by
  unfold round_to_tick_size
  rw [mul_div_cancel_right₀ _ (ne_of_gt ht), pyRound_intCast]

/-- Witness for C4 at price 3, tick 2. -/
theorem round_to_tick_size_idempotent_witness :
    round_to_tick_size (round_to_tick_size 3 2) 2 = round_to_tick_size 3 2 :=
  round_to_tick_size_idempotent 3 2 (by norm_num) (by norm_num)

/-- C7 counterexample: a negative tick size does not fail fast; the code
silently returns a rounded value (here `round_to_tick_size 3 (-1/2) = 3`),
because Python only raises on division by exactly zero. -/
theorem roundToTickSize_negative_tick_counterexample :
    roundToTickSizeChecked 3 (-(1 / 2)) = .ok 3 := by
  with_unfolding_all rfl

/-- C7 (amended): a zero tick size fails fast for every price via
ZeroDivisionError, but any nonzero tick size - negative ones included -
returns `round(price / tick_size) * tick_size` without any validation. -/
theorem roundToTickSize_zero_tick_fails (price tick_size : ℚ) :
    (tick_size = 0 → roundToTickSizeChecked price tick_size = .exn) ∧
    (tick_size ≠ 0 →
      roundToTickSizeChecked price tick_size = .ok (round_to_tick_size price tick_size)) := by
  constructor <;> intro h <;> simp [roundToTickSizeChecked, h]

/-- Witness for C7 at price 7, tick 0. -/
theorem roundToTickSize_zero_tick_fails_witness :
    roundToTickSizeChecked 7 0 = .exn :=
  (roundToTickSize_zero_tick_fails 7 0).1 rfl

/-- C3: the concrete scenario from the spec.
Calling it on side `sell` with take_profit_price 86486.17 and tick_size 0.5
rounds 86486.17 to tick (86486.0), stringifies it, and returns exactly one
`take_profit` entry with the default `trigger_by` and `close_position`. -/
theorem create_tpsl_params_scenario :
    create_tpsl_params "sell" (some (8648617 / 100)) none "LAST_PRICE" true (1 / 2)
      = .ok [("take_profit", ⟨⟨"TAKE_PROFIT", ⟨"86486.0", "LAST_PRICE", true⟩⟩⟩)] := by
  with_unfolding_all rfl

/-- C10: the result of `create_tpsl_params` does not depend on `side`; the
parameter is accepted but never read in the body. -/
theorem create_tpsl_params_side_independent (side1 side2 : String)
    (take_profit_price stop_loss_price : Option ℚ) (trigger_by : String)
    (close_position : Bool) (tick_size : ℚ) :
    create_tpsl_params side1 take_profit_price stop_loss_price trigger_by
        close_position tick_size
      = create_tpsl_params side2 take_profit_price stop_loss_price trigger_by
        close_position tick_size :=
  rfl

/-- C2 counterexample: with both prices supplied non-zero the key set can
still differ from `{take_profit, stop_loss}`.  A take-profit of 0.2 with
tick 0.5 rounds to 0.0, which the post-rounding truthiness check drops, so
only `stop_loss` remains; and with both prices supplied and tick 0 the
call raises instead of returning a mapping. -/
theorem create_tpsl_params_keys_counterexample :
    resultKeys (create_tpsl_params "sell" (some (1 / 5)) (some 100) "LAST_PRICE" true (1 / 2))
        = ["stop_loss"] ∧
    create_tpsl_params "sell" (some 1) (some 2) "LAST_PRICE" true 0 = .exn :=
  ⟨by with_unfolding_all rfl, by with_unfolding_all rfl⟩

lemma truthy_some_of_ne {x : ℚ} (h : x ≠ 0) : truthy (some x) = true := by
  simp [truthy, bne_iff_ne, h]

/-- C2 (amended): for a nonzero tick size, when both prices are supplied
and both tick-rounded values are nonzero, the returned mapping has exactly
the keys `take_profit` and `stop_loss` (in insertion order); with neither
price supplied the result is the empty mapping for every tick size. -/
theorem create_tpsl_params_keys (side trigger_by : String) (close_position : Bool)
    (tick_size tp sl : ℚ) (hts : tick_size ≠ 0)
    (htp : round_to_tick_size tp tick_size ≠ 0)
    (hsl : round_to_tick_size sl tick_size ≠ 0) :
    resultKeys (create_tpsl_params side (some tp) (some sl) trigger_by close_position tick_size)
        = ["take_profit", "stop_loss"] ∧
    (∀ side2 trigger_by2 close_position2 tick_size2,
      create_tpsl_params side2 none none trigger_by2 close_position2 tick_size2 = .ok []) := by
  constructor
  · have htp0 : tp ≠ 0 := by
      intro h
      exact htp (by rw [h, round_to_tick_size_zero_price])
    have hsl0 : sl ≠ 0 := by
      intro h
      exact hsl (by rw [h, round_to_tick_size_zero_price])
    simp [create_tpsl_params, roundToTickSizeChecked, hts, resultKeys,
      truthy_some_of_ne htp0, truthy_some_of_ne hsl0,
      truthy_some_of_ne htp, truthy_some_of_ne hsl]
  · intro side2 trigger_by2 close_position2 tick_size2
    rfl

/-- Witness for C2 at tick 1/2 with prices 100 and 90 (both tick-fixed and
nonzero). -/
theorem create_tpsl_params_keys_witness :
    resultKeys (create_tpsl_params "sell" (some 100) (some 90) "LAST_PRICE" true (1 / 2))
      = ["take_profit", "stop_loss"] := by
  have h1 : round_to_tick_size 100 (1 / 2) = 100 := by with_unfolding_all rfl
  have h2 : round_to_tick_size 90 (1 / 2) = 90 := by with_unfolding_all rfl
  exact (create_tpsl_params_keys "sell" "LAST_PRICE" true (1 / 2) 100 90 (by norm_num)
    (by rw [h1]; norm_num) (by rw [h2]; norm_num)).1

lemma is_long_sell : (pyLower "sell" == "sell") = true := by
  with_unfolding_all rfl

lemma is_long_buy : (pyLower "buy" == "sell") = false := by
  with_unfolding_all rfl

/-- C1 counterexample: for last price 1 > 0 the supplied take-profit 0
satisfies tp < last price, yet validation succeeds with `(True, "")` - a
zero price is falsy and treated as absent, so with no stop-loss the
both-absent early return fires instead of the claimed failure. -/
theorem validate_tpsl_prices_zero_tp_counterexample :
    validate_tpsl_prices "sell" 1 (some 0) none = (true, "") := by
  with_unfolding_all rfl

/-- C1 (amended): for every last price L > 0, a sell-side validation with
tp > L and sl < L succeeds with `(True, "")`; a supplied nonzero tp with
tp < L fails with the message naming L formatted to two decimals; and the
symmetric statements hold for side `buy` with the inequalities reversed. -/
theorem validate_tpsl_prices_spec (L tp sl : ℚ) (hL : 0 < L) :
    (L < tp → sl < L → validate_tpsl_prices "sell" L (some tp) (some sl) = (true, "")) ∧
    (tp ≠ 0 → tp < L → validate_tpsl_prices "sell" L (some tp) none = (false, tpLongMsg L)) ∧
    (tp < L → L < sl → validate_tpsl_prices "buy" L (some tp) (some sl) = (true, "")) ∧
    (tp ≠ 0 → L < tp → validate_tpsl_prices "buy" L (some tp) none = (false, tpShortMsg L)) := by
  refine ⟨?_, ?_, ?_, ?_⟩
  · intro h1 h2
    have htp : truthy (some tp) = true := truthy_some_of_ne (ne_of_gt (hL.trans h1))
    by_cases hsl0 : sl = 0
    · subst hsl0
      simp [validate_tpsl_prices, is_long_sell, htp, truthy, not_le.mpr h1]
    · simp [validate_tpsl_prices, is_long_sell, htp, truthy_some_of_ne hsl0,
        not_le.mpr h1, not_le.mpr h2]
  · intro h0 h2
    simp [validate_tpsl_prices, is_long_sell, truthy_some_of_ne h0, truthy,
      le_of_lt h2, h0]
  · intro h1 h2
    have hsl : truthy (some sl) = true := truthy_some_of_ne (ne_of_gt (hL.trans h2))
    by_cases htp0 : tp = 0
    · subst htp0
      simp [validate_tpsl_prices, is_long_buy, hsl, truthy, not_le.mpr h2]
    · simp [validate_tpsl_prices, is_long_buy, hsl, truthy_some_of_ne htp0,
        not_le.mpr h1, not_le.mpr h2]
  · intro h0 h1
    simp [validate_tpsl_prices, is_long_buy, truthy_some_of_ne h0, truthy,
      le_of_lt h1, h0]

/-- Witness for C1 at L = 100 with a supplied nonzero tp = 50 below L. -/
theorem validate_tpsl_prices_spec_witness :
    validate_tpsl_prices "sell" 100 (some 50) none = (false, tpLongMsg 100) :=
  (validate_tpsl_prices_spec 100 50 7 (by norm_num)).2.1 (by norm_num) (by norm_num)

lemma validate_zero_tp (side : String) (L : ℚ) (sl : Option ℚ) :
    validate_tpsl_prices side L (some 0) sl = validate_tpsl_prices side L none sl :=
  rfl

lemma validate_zero_sl (side : String) (L : ℚ) (tp : Option ℚ) :
    validate_tpsl_prices side L tp (some 0) = validate_tpsl_prices side L tp none :=
  rfl

lemma validate_none_none (side : String) (L : ℚ) :
    validate_tpsl_prices side L none none = (true, "") :=
  rfl

lemma create_zero_tp (side : String) (sl : Option ℚ) (tb : String) (cp : Bool) (ts : ℚ) :
    create_tpsl_params side (some 0) sl tb cp ts = create_tpsl_params side none sl tb cp ts :=
  rfl

lemma create_zero_sl (side : String) (tp : Option ℚ) (tb : String) (cp : Bool) (ts : ℚ) :
    create_tpsl_params side tp (some 0) tb cp ts = create_tpsl_params side tp none tb cp ts :=
  rfl

lemma truthy_none : truthy none = false :=
  rfl

lemma create_none_tp_no_key (side : String) (sl : Option ℚ) (tb : String) (cp : Bool) (ts : ℚ) :
    "take_profit" ∉ resultKeys (create_tpsl_params side none sl tb cp ts) := by
  by_cases hsl : truthy sl = true
  · by_cases hts : ts = 0
    · simp [create_tpsl_params, roundToTickSizeChecked, hsl, hts, resultKeys, truthy_none]
    · by_cases hr : truthy (some (round_to_tick_size (sl.getD 0) ts)) = true
      · simp [create_tpsl_params, roundToTickSizeChecked, hsl, hts, hr, resultKeys,
          truthy_none]
      · rw [Bool.not_eq_true] at hr
        simp [create_tpsl_params, roundToTickSizeChecked, hsl, hts, hr, resultKeys,
          truthy_none]
  · rw [Bool.not_eq_true] at hsl
    simp [create_tpsl_params, roundToTickSizeChecked, hsl, resultKeys, truthy_none]

/-- C8: a zero price argument is treated exactly like an absent one.  In
`validate_tpsl_prices` a zero tp (or sl) gives the same result as passing
none, and with both absent validation trivially succeeds with
`(True, "")`; in `create_tpsl_params` a zero tp (or sl) gives the same
mapping as passing none, and in particular the corresponding entry is
omitted. -/
theorem zero_price_treated_as_absent :
    (∀ side L sl, validate_tpsl_prices side L (some 0) sl = validate_tpsl_prices side L none sl) ∧
    (∀ side L tp, validate_tpsl_prices side L tp (some 0) = validate_tpsl_prices side L tp none) ∧
    (∀ side L, validate_tpsl_prices side L none none = (true, "")) ∧
    (∀ side sl tb cp ts,
      create_tpsl_params side (some 0) sl tb cp ts = create_tpsl_params side none sl tb cp ts) ∧
    (∀ side tp tb cp ts,
      create_tpsl_params side tp (some 0) tb cp ts = create_tpsl_params side tp none tb cp ts) ∧
    (∀ side sl tb cp ts,
      "take_profit" ∉ resultKeys (create_tpsl_params side (some 0) sl tb cp ts)) := by
  refine ⟨validate_zero_tp, validate_zero_sl, validate_none_none, create_zero_tp,
    create_zero_sl, ?_⟩
  intro side sl tb cp ts
  rw [create_zero_tp]
  exact create_none_tp_no_key side sl tb cp ts

/-- C5: `can_make_request` first stores back exactly the filtered list of
timestamps strictly younger than `time_window`, so only in-window
timestamps survive, and its boolean result is precisely whether the pruned
length is strictly below `max_requests`; with an empty list and positive
`max_requests` it returns true. -/
theorem can_make_request_spec (rl : RateLimiter) (now : ℚ) :
    ((rl.can_make_request now).1.requests
        = rl.requests.filter (fun req_time => decide (now - req_time < rl.time_window))) ∧
    (∀ t ∈ (rl.can_make_request now).1.requests, now - t < rl.time_window) ∧
    ((rl.can_make_request now).2
        = decide ((rl.can_make_request now).1.requests.length < rl.max_requests)) ∧
    (rl.requests = [] → 0 < rl.max_requests → (rl.can_make_request now).2 = true) := by
  refine ⟨rfl, ?_, rfl, ?_⟩
  · intro t ht
    have h := List.of_mem_filter (p := fun req_time => decide (now - req_time < rl.time_window))
      (l := rl.requests) ht
    exact of_decide_eq_true h
  · intro h hmax
    simp [RateLimiter.can_make_request, h, hmax]

/-- Witness for C5: an empty request list with `max_requests = 2` allows a
request. -/
theorem can_make_request_spec_witness :
    (RateLimiter.can_make_request ⟨2, 10, []⟩ 0).2 = true :=
  (can_make_request_spec ⟨2, 10, []⟩ 0).2.2.2 rfl (by norm_num)

/-- C6: for positive `max_requests`, `wait_if_needed` returns without
sleeping whenever `can_make_request` is true; when it is false, the pruned
list is provably non-empty, its minimum is the oldest request, and the
function sleeps `time_window - (now - oldest) + 0.1` seconds exactly when
that wait time is positive (returning without sleeping otherwise). -/
theorem wait_if_needed_spec (rl : RateLimiter) (now1 now2 : ℚ)
    (hmax : 0 < rl.max_requests) :
    ((rl.can_make_request now1).2 = true →
      rl.wait_if_needed now1 now2 = .ok ((rl.can_make_request now1).1, none)) ∧
    ((rl.can_make_request now1).2 = false →
      ∃ oldest_request, pyMin (rl.can_make_request now1).1.requests = some oldest_request ∧
        rl.wait_if_needed now1 now2 = .ok ((rl.can_make_request now1).1,
          if 0 < rl.time_window - (now2 - oldest_request)
          then some (rl.time_window - (now2 - oldest_request) + 1 / 10)
          else none)) := by
  constructor
  · intro h
    unfold RateLimiter.wait_if_needed
    simp [h]
  · intro h
    have hlen : ¬((rl.can_make_request now1).1.requests.length < rl.max_requests) := by
      intro hc
      have : (rl.can_make_request now1).2 = true := decide_eq_true hc
      rw [h] at this
      exact Bool.false_ne_true this
    obtain ⟨a, as, hlist⟩ : ∃ a as, (rl.can_make_request now1).1.requests = a :: as := by
      cases hreq : (rl.can_make_request now1).1.requests with
      | nil =>
        exfalso
        rw [hreq] at hlen
        simp at hlen
        omega
      | cons a as => exact ⟨a, as, rfl⟩
    refine ⟨(as.foldl min a), ?_, ?_⟩
    · rw [hlist]
      rfl
    · unfold RateLimiter.wait_if_needed
      simp only [h, Bool.false_eq_true, if_false, hlist, pyMin]
      by_cases hw : 0 < rl.time_window - (now2 - as.foldl min a)
      · simp [hw]
      · simp [hw]

/-- Witness for C6: an under-limit limiter returns immediately without
sleeping. -/
theorem wait_if_needed_spec_witness :
    RateLimiter.wait_if_needed ⟨1, 10, []⟩ 0 0 = .ok (⟨1, 10, []⟩, none) :=
  (wait_if_needed_spec ⟨1, 10, []⟩ 0 0 (by norm_num)).1 (by with_unfolding_all rfl)

lemma cancelLoop_eq (l : List PyOrder) (c : ℕ) :
    cancelLoop l c = c + l.countP cancelSucceeds := by
  induction l generalizing c with
  | nil => simp [cancelLoop]
  | cons o rest ih =>
    by_cases h : cancelSucceeds o = true
    · simp [cancelLoop, h, ih, List.countP_cons]
      omega
    · rw [Bool.not_eq_true] at h
      simp [cancelLoop, h, ih, List.countP_cons]

/-- C9: the module-level `emergency_cancel_all` does behave as claimed - a
failing fetch yields 0 and otherwise every order contributes independently
to the accumulated success count - but the module-level
`emergency_close_all` does not: even for a fetchable, closeable position
(size 1, `create_order` succeeding) it returns 0, because its body calls
`safe_float`, a name only defined locally inside `create_positions_table`,
and the resulting NameError is swallowed by the top-level handler. -/
theorem emergency_ops_spec :
    (emergency_cancel_all .exn = 0) ∧
    (∀ open_orders, emergency_cancel_all (.ok open_orders)
        = open_orders.countP cancelSucceeds) ∧
    (emergency_close_all (.ok [⟨1, some "BTC_USDT_Perp", .retOk⟩]) = 0) := by
  refine ⟨rfl, ?_, rfl⟩
  intro open_orders
  cases open_orders with
  | nil => rfl
  | cons o rest =>
    simp [emergency_cancel_all, List.isEmpty, cancelLoop_eq]
